import Mathlib

/-!
Shallow embedding of the `etf_delta` repository's core
(`src/valuation.py`, `src/fetch_gold.py`, `src/fetch_fund.py`).

Numeric values (Python ints/floats) are modelled as rationals `ℚ`.
Python dictionaries holding dynamically typed field values are modelled
with an explicit value type `Val` (a number or a string); arithmetic on a
string raises `TypeError`, mirroring CPython, so fallible code returns
`Except String`.  Wall-clock times are seconds since the epoch (`ℤ`);
calendar dates are day numbers since 1970-01-01 (a Thursday), so
Python's `date.weekday()` (Monday = 0) is `(d + 3) % 7`.
-/

namespace EtfDelta

/-- A dynamically typed Python value stored in a fund-record dict:
either a number (int/float, modelled as `ℚ`) or a string. -/
inductive Val where
  | num (q : ℚ)
  | str (s : String)
deriving DecidableEq, Repr

/-- Arbitrage signal, `valuation.py` returns one of the strings
`'BUY'`, `'SELL'`, `'HOLD'`. -/
inductive Signal where
  | BUY
  | SELL
  | HOLD
deriving DecidableEq, Repr

/-- `FundValuationAnalyzer.calculate_estimated_nav` (valuation.py:12-28).
`nav_t2` comes from a dict lookup so it may be any Python value; Python's
`nav_t2 == 0` is `False` for a string, after which `nav_t2 * (1 + r)`
raises `TypeError` (`r` is a float). -/
def calculate_estimated_nav (nav_t2 : Val) (gold_return_total : ℚ) : Except String ℚ :=
  match nav_t2 with
  | .num q => if q = 0 then .ok 0 else .ok (q * (1 + gold_return_total))
  | .str _ => .error "TypeError"

/-- `FundValuationAnalyzer.calculate_premium` (valuation.py:30-46). -/
def calculate_premium (current_price : Val) (estimated_nav : ℚ) : Except String ℚ :=
  if estimated_nav = 0 then .ok 0
  else
    match current_price with
    | .num c => .ok ((c - estimated_nav) / estimated_nav)
    | .str _ => .error "TypeError"

/-- `FundValuationAnalyzer._get_arbitrage_signal` (valuation.py:119-134). -/
def get_arbitrage_signal (premium_rate : ℚ) : Signal :=
  if premium_rate < -(1/100) then .BUY
  else if premium_rate > 1/100 then .SELL
  else .HOLD

/-- A fund-record dict as consumed by `analyze_single_fund`: each field
may be absent (`none`); `.get(key, default)` supplies the default. -/
structure FundData where
  fund_code : Option String
  fund_name : Option String
  nav_t2 : Option Val
  current_price : Option Val
  premium_t1 : Option Val
deriving DecidableEq, Repr

/-- The gold-data dict; `analyze_single_fund` reads
`gold_data.get('gold_return_total', 0)`. -/
structure GoldData where
  gold_return_total : Option ℚ
deriving DecidableEq, Repr

/-- The analysis-result dict built by `analyze_single_fund`
(valuation.py:79-91).  The wall-clock `analysis_time` string is omitted:
it is a timestamp with no algorithmic content. -/
structure Analysis where
  fund_code : String
  fund_name : String
  nav_t2 : Val
  estimated_nav_current : ℚ
  current_price : Val
  premium_t1 : ℚ
  premium_current : ℚ
  premium_change : ℚ
  gold_return_total : ℚ
  arbitrage_signal : Signal
deriving DecidableEq, Repr

/-- `FundValuationAnalyzer.analyze_single_fund` (valuation.py:48-91).
Computations happen in source order; the first `TypeError` aborts the
record's evaluation, as in Python. -/
def analyze_single_fund (fund_data : FundData) (gold_data : GoldData) :
    Except String Analysis := do
  let nav_t2 := fund_data.nav_t2.getD (.num 0)
  let current_price := fund_data.current_price.getD (.num 0)
  let gold_return_total := gold_data.gold_return_total.getD 0
  let estimated_nav ← calculate_estimated_nav nav_t2 gold_return_total
  let current_premium ← calculate_premium current_price estimated_nav
  -- `premium_t1 = fund_data.get('premium_t1', 0) / 100`; dividing a
  -- string by an int raises TypeError.
  let premium_t1 ←
    match fund_data.premium_t1.getD (.num 0) with
    | .num q => Except.ok (q / 100)
    | .str _ => Except.error "TypeError"
  let premium_change := current_premium - premium_t1
  let arbitrage_signal := get_arbitrage_signal current_premium
  return { fund_code := fund_data.fund_code.getD ""
           fund_name := fund_data.fund_name.getD ""
           nav_t2 := nav_t2
           estimated_nav_current := estimated_nav
           current_price := current_price
           premium_t1 := premium_t1
           premium_current := current_premium
           premium_change := premium_change
           gold_return_total := gold_return_total
           arbitrage_signal := arbitrage_signal }

/-- The accumulation loop of `analyze_multiple_funds`
(valuation.py:104-112): each record is evaluated inside `try/except`;
a raising record is skipped, a succeeding one appended in order. -/
def evaluation_results (funds_data : List FundData) (gold_data : GoldData) :
    List Analysis :=
  funds_data.filterMap fun f => (analyze_single_fund f gold_data).toOption

/-- Sort key of `results.sort(key=lambda x: x['premium_current'])`. -/
def premLE (a b : Analysis) : Prop :=
  a.premium_current ≤ b.premium_current

instance : DecidableRel premLE := fun a b =>
  inferInstanceAs (Decidable (a.premium_current ≤ b.premium_current))

instance : IsTotal Analysis premLE :=
  ⟨fun a b => le_total a.premium_current b.premium_current⟩

instance : IsTrans Analysis premLE :=
  ⟨fun _ _ _ h1 h2 => le_trans h1 h2⟩

/-- `FundValuationAnalyzer.analyze_multiple_funds` (valuation.py:93-117).
Python's `list.sort` is a stable ascending sort; it is embedded as
insertion sort, the canonical stable sort. -/
def analyze_multiple_funds (funds_data : List FundData) (gold_data : GoldData) :
    List Analysis :=
  List.insertionSort premLE (evaluation_results funds_data gold_data)

/-! ### `fetch_gold.py`: price-source fallback chain and cache -/

/-- Python's `round` (banker's rounding, round half to even) on a
rational, to the nearest integer. -/
def roundHalfEven (x : ℚ) : ℤ :=
  let f := x.floor
  let r := x - f
  if r < 1/2 then f
  else if r > 1/2 then f + 1
  else if f % 2 = 0 then f else f + 1

/-- `round(x, 2)`. -/
def round2 (x : ℚ) : ℚ := (roundHalfEven (x * 100) : ℚ) / 100

/-- `round(x, 4)`. -/
def round4 (x : ℚ) : ℚ := (roundHalfEven (x * 10000) : ℚ) / 10000

/-- `date.weekday()` for a day number since 1970-01-01 (a Thursday):
Monday = 0 .. Sunday = 6. -/
def weekday (d : ℤ) : ℤ := (d + 3) % 7

/-- One row of price data: a price and its calendar date (day number). -/
structure PricePoint where
  price : ℚ
  date : ℤ
deriving DecidableEq, Repr

/-- The `prices` dict `{current, t1, t2}` built by every gold-price
path in `fetch_gold.py`. -/
structure GoldPrices where
  current : PricePoint
  t1 : PricePoint
  t2 : PricePoint
deriving DecidableEq, Repr

/-- Parsed content of the cache file `gold_data_cache.json`
(`{'data': ..., 'timestamp': ...}`); the `source` string is constant
(`'yahoo_finance'`) and carries no information. -/
structure CacheEntry where
  data : GoldPrices
  timestamp : ℤ
deriving DecidableEq, Repr

/-- The gold-price sources attempted by `fetch_gold_prices`. -/
inductive Source where
  | metalsAPI
  | yahooFutures
  | yahooSpot
deriving DecidableEq, Repr

/-- The weekend adjustment applied identically by `fetch_metals_api_gold`
(fetch_gold.py:51-61) and `_generate_realistic_gold_data`
(fetch_gold.py:201-212): returns the `(t1_date, t2_date)` pair.
Monday maps t-1 to Friday and t-2 to Thursday; Tuesday maps t-2 to
Friday. -/
def adjusted_dates (today : ℤ) : ℤ × ℤ :=
  if weekday today = 0 then (today - 3, today - 4)
  else if weekday today = 1 then (today - 1, today - 4)
  else (today - 1, today - 2)

/-- `GoldDataFetcher.fetch_metals_api_gold` (fetch_gold.py:27-83).
`resp` is the parsed `price` field of a successful (HTTP 200) response,
`none` for any request failure; `v1`, `v2` are the two
`np.random.normal(0, 0.01)` draws.  A non-positive price falls through
and the function returns `None`. -/
def fetch_metals_api_gold (resp : Option ℚ) (v1 v2 : ℚ) (today : ℤ) :
    Option GoldPrices :=
  match resp with
  | none => none
  | some current_price =>
    if 0 < current_price then
      let price_t1 := current_price * (1 - v1)
      let price_t2 := price_t1 * (1 - v2)
      let d := adjusted_dates today
      some { current := { price := round2 current_price, date := today }
             t1 := { price := round2 price_t1, date := d.1 }
             t2 := { price := round2 price_t2, date := d.2 } }
    else none

/-- `GoldDataFetcher.fetch_gold_prices_yahoo_finance`
(fetch_gold.py:85-150).  `hist` is the fetched daily history (`none` if
the request raised); rows whose date falls on a weekend are discarded;
fewer than two remaining rows is a failure.  The last row is `current`,
the second-to-last `t1`, the third-to-last `t2` (collapsing to `t1`
when only two rows exist).  On success the helper itself caches the
result (fetch_gold.py:145); the second component lists the cache writes
it performs. -/
def fetch_gold_prices_yahoo_finance (hist : Option (List PricePoint)) :
    Option GoldPrices × List GoldPrices :=
  match hist with
  | none => (none, [])
  | some rows =>
    match (rows.filter fun r => weekday r.date < 5).reverse with
    | c :: p1 :: rest =>
      let p2 := match rest with
        | p2 :: _ => p2
        | [] => p1
      let prices : GoldPrices := { current := c, t1 := p1, t2 := p2 }
      (some prices, [prices])
    | _ => (none, [])

/-- `GoldDataFetcher._load_cached_gold_data` (fetch_gold.py:165-183).
`cache` is the parsed cache file, `none` when missing or unreadable
(all read/parse errors are swallowed into a miss); the entry is served
only while `now - timestamp < 24h` (strictly). -/
def load_cached_gold_data (cache : Option CacheEntry) (now : ℤ) :
    Option GoldPrices :=
  match cache with
  | none => none
  | some e => if now - e.timestamp < 86400 then some e.data else none

/-- `GoldDataFetcher._generate_realistic_gold_data`
(fetch_gold.py:185-230).  `d0` is the `np.random.normal(0, 50)` draw on
the base price, `c1`, `c2` the two `np.random.normal(0, 0.015)` daily
changes. -/
def generate_realistic_gold_data (today : ℤ) (d0 c1 c2 : ℚ) : GoldPrices :=
  let base_price := 2050 + d0
  let price_t2 := base_price
  let price_t1 := price_t2 * (1 + c1)
  let price_current := price_t1 * (1 + c2)
  let d := adjusted_dates today
  { current := { price := round2 price_current, date := today }
    t1 := { price := round2 price_t1, date := d.1 }
    t2 := { price := round2 price_t2, date := d.2 } }

/-- The external world of one `fetch_gold_prices` call: cache file,
wall clock, each source's response, and the random draws each
synthetic path would consume. -/
structure GoldEnv where
  cache : Option CacheEntry
  now : ℤ
  metals : Option ℚ
  metalsV1 : ℚ
  metalsV2 : ℚ
  futures : Option (List PricePoint)
  spot : Option (List PricePoint)
  genD0 : ℚ
  genC1 : ℚ
  genC2 : ℚ
deriving Repr

/-- `datetime.now()`'s calendar date for a clock reading in seconds. -/
def GoldEnv.today (env : GoldEnv) : ℤ := env.now.fdiv 86400

/-- Observable outcome of `fetch_gold_prices`: the returned triple, the
network sources attempted (in order), and the successive writes of the
cache file (`_cache_gold_data` calls, in order). -/
structure FetchOutcome where
  prices : GoldPrices
  attempts : List Source
  cacheWrites : List GoldPrices
deriving DecidableEq, Repr

/-- `GoldDataFetcher.fetch_gold_prices` (fetch_gold.py:232-279).
Step 1 cache, step 2 metals.live, step 3 Yahoo futures `GC=F`, step 4
Yahoo spot `XAU=X`, step 5 synthesis.  The dispatcher calls
`_cache_gold_data` itself after each successful live fetch
(fetch_gold.py:250,261,272), in addition to the write the Yahoo helper
already performed. -/
def fetch_gold_prices (env : GoldEnv) : FetchOutcome :=
  match load_cached_gold_data env.cache env.now with
  | some d => { prices := d, attempts := [], cacheWrites := [] }
  | none =>
    match fetch_metals_api_gold env.metals env.metalsV1 env.metalsV2 env.today with
    | some p =>
      { prices := p, attempts := [.metalsAPI], cacheWrites := [p] }
    | none =>
      let yf := fetch_gold_prices_yahoo_finance env.futures
      match yf.1 with
      | some p =>
        { prices := p
          attempts := [.metalsAPI, .yahooFutures]
          cacheWrites := yf.2 ++ [p] }
      | none =>
        let ys := fetch_gold_prices_yahoo_finance env.spot
        match ys.1 with
        | some p =>
          { prices := p
            attempts := [.metalsAPI, .yahooFutures, .yahooSpot]
            cacheWrites := yf.2 ++ ys.2 ++ [p] }
        | none =>
          { prices := generate_realistic_gold_data env.today env.genD0 env.genC1 env.genC2
            attempts := [.metalsAPI, .yahooFutures, .yahooSpot]
            cacheWrites := yf.2 ++ ys.2 }

/-! ### `fetch_gold.py`: exchange-rate fallback chain -/

/-- The external world of one `fetch_exchange_rate` call.  For the two
REST providers, `none` covers request failure, a non-2xx status and a
missing `CNY` key; `some r` is a present rate, which Python then tests
for truthiness (`if rate:`), so `r = 0` is also treated as failure.
`yahoo` is the last close of the `USDCNY=X` history if non-empty, and
is returned without a truthiness test.  `draw` is the
`np.random.normal(0, 0.1)` perturbation of the simulated fallback. -/
structure FxEnv where
  api1 : Option ℚ
  api2 : Option ℚ
  yahoo : Option ℚ
  draw : ℚ
deriving Repr

/-- `GoldDataFetcher.fetch_exchange_rate` (fetch_gold.py:281-326). -/
def fetch_exchange_rate (env : FxEnv) : ℚ :=
  let step3 :=
    match env.yahoo with
    | some r => r
    | none => round4 (715/100 + env.draw)
  let step2 :=
    match env.api2 with
    | some r => if r = 0 then step3 else r
    | none => step3
  match env.api1 with
  | some r => if r = 0 then step2 else r
  | none => step2

/-! ### `fetch_fund.py`: merging keyword-search results -/

/-- A fund record as built by `_search_funds_by_keyword`
(fetch_fund.py:96-106).  `fund_code` is read via
`fund.get('fund_code', '')`, so an absent key and an empty string are
observationally the same: both are modelled as `""`.  The wall-clock
`update_time` string is omitted. -/
structure QdiiFund where
  fund_code : String
  fund_name : String
  current_price : ℚ
  nav_t2 : ℚ
  estimated_nav_t1 : ℚ
  premium_t1 : ℚ
  volume : ℚ
  turnover : ℚ
deriving DecidableEq, Repr

/-- The dedup loop of `fetch_gold_qdii_funds` (fetch_fund.py:45-52):
`unique_funds` is a dict keyed by code (`seen` holds its keys), filled
in discovery order with the first record per non-empty code;
`list(unique_funds.values())` preserves key-insertion order. -/
def dedup_funds : List QdiiFund → List String → List QdiiFund
  | [], _ => []
  | f :: rest, seen =>
    if f.fund_code ≠ "" ∧ f.fund_code ∉ seen then
      f :: dedup_funds rest (f.fund_code :: seen)
    else
      dedup_funds rest seen

/-- The merge phase of `fetch_gold_qdii_funds` (fetch_fund.py:35-52):
the per-keyword result lists are concatenated in search order
(`all_funds.extend(funds)`) and then deduplicated by fund code. -/
def merge_fund_lists (lists : List (List QdiiFund)) : List QdiiFund :=
  dedup_funds lists.flatten []

/-! ## Claim theorems -/

/-- C1: for every premium value `p`, `_get_arbitrage_signal` returns
BUY iff `p < -0.01`, SELL iff `p > 0.01`, and HOLD otherwise; the
boundary values `p = -0.01` and `p = 0.01` both yield HOLD. -/
theorem c1_signal_classification (p : ℚ) :
    (get_arbitrage_signal p = .BUY ↔ p < -(1/100)) ∧
    (get_arbitrage_signal p = .SELL ↔ 1/100 < p) ∧
    (get_arbitrage_signal p = .HOLD ↔ -(1/100) ≤ p ∧ p ≤ 1/100) ∧
    get_arbitrage_signal (-(1/100)) = .HOLD ∧
    get_arbitrage_signal (1/100) = .HOLD := by
  refine ⟨?_, ?_, ?_, ?_, ?_⟩
  · unfold get_arbitrage_signal
    split_ifs with h1 h2 <;> simp_all
  · unfold get_arbitrage_signal
    split_ifs with h1 h2 <;> simp_all
    linarith
  · unfold get_arbitrage_signal
    split_ifs with h1 h2 <;> simp_all
  · norm_num [get_arbitrage_signal]
  · norm_num [get_arbitrage_signal]

/-- C9: `calculate_estimated_nav` returns `reported_nav * (1 + r)` for
every positive reported NAV, and `0` when the reported NAV is `0`. -/
theorem c9_model_nav (nav r : ℚ) :
    (0 < nav →
      calculate_estimated_nav (.num nav) r = .ok (nav * (1 + r))) ∧
    calculate_estimated_nav (.num 0) r = .ok 0 := by
  constructor
  · intro h
    simp [calculate_estimated_nav, h.ne']
  · simp [calculate_estimated_nav]

/-- C9 witness at `reported_nav = 2`, `period_return = 1/2`. -/
theorem c9_model_nav_witness :
    calculate_estimated_nav (.num 2) (1/2) = .ok (2 * (1 + 1/2)) :=
  (c9_model_nav 2 (1/2)).1 (by norm_num)

/-- C2: with a well-formed cache entry, a quote younger than 24 hours
is returned verbatim with no network attempt; a quote 24 hours old or
older lets the fetch proceed to a live source attempt. -/
theorem c2_cache_policy (env : GoldEnv) (e : CacheEntry)
    (hc : env.cache = some e) :
    (env.now - e.timestamp < 86400 →
      fetch_gold_prices env =
        { prices := e.data, attempts := [], cacheWrites := [] }) ∧
    (86400 ≤ env.now - e.timestamp →
      Source.metalsAPI ∈ (fetch_gold_prices env).attempts) := by
  constructor
  · intro h
    have hload : load_cached_gold_data env.cache env.now = some e.data := by
      unfold load_cached_gold_data
      rw [hc]
      exact if_pos h
    unfold fetch_gold_prices
    rw [hload]
  · intro h
    have hload : load_cached_gold_data env.cache env.now = none := by
      unfold load_cached_gold_data
      rw [hc]
      exact if_neg (by omega)
    unfold fetch_gold_prices
    rw [hload]
    rcases hm : fetch_metals_api_gold env.metals env.metalsV1 env.metalsV2 env.today
      with _ | p
    · rcases hf : (fetch_gold_prices_yahoo_finance env.futures).1 with _ | p
      · rcases hs : (fetch_gold_prices_yahoo_finance env.spot).1 with _ | p
        · simp [hf, hs]
        · simp [hf, hs]
      · simp [hf]
    · simp

/-- A concrete price triple used by witnesses. -/
def sampleTriple : GoldPrices :=
  { current := { price := 2000, date := 0 }
    t1 := { price := 1990, date := -1 }
    t2 := { price := 1980, date := -2 } }

/-- A fetch environment whose cache entry is one hour old. -/
def envFreshCache : GoldEnv :=
  { cache := some { data := sampleTriple, timestamp := 0 }
    now := 3600
    metals := none, metalsV1 := 0, metalsV2 := 0
    futures := none, spot := none
    genD0 := 0, genC1 := 0, genC2 := 0 }

/-- A fetch environment whose cache entry is 25 hours old. -/
def envStaleCache : GoldEnv :=
  { cache := some { data := sampleTriple, timestamp := 0 }
    now := 90000
    metals := none, metalsV1 := 0, metalsV2 := 0
    futures := none, spot := none
    genD0 := 0, genC1 := 0, genC2 := 0 }

/-- C2 witness: a 1-hour-old entry is served verbatim without network
attempts; a 25-hour-old entry triggers a live attempt. -/
theorem c2_cache_policy_witness :
    fetch_gold_prices envFreshCache =
      { prices := sampleTriple, attempts := [], cacheWrites := [] } ∧
    Source.metalsAPI ∈ (fetch_gold_prices envStaleCache).attempts :=
  ⟨(c2_cache_policy envFreshCache _ rfl).1 (by decide),
   (c2_cache_policy envStaleCache _ rfl).2 (by decide)⟩

/-- `roundHalfEven` of an integer is that integer. -/
lemma roundHalfEven_intCast (n : ℤ) : roundHalfEven ((n : ℚ)) = n := by
  unfold roundHalfEven
  have hf : ((n : ℚ)).floor = n := by
    simp [Rat.floor]
  rw [hf]
  norm_num

/-- Evaluate `round2` on a rational whose hundredfold is an integer. -/
lemma round2_intValued (x : ℚ) (n : ℤ) (h : x * 100 = (n : ℚ)) :
    round2 x = (n : ℚ) / 100 := by
  unfold round2
  rw [h, roundHalfEven_intCast]

/-- Evaluate `round4` on a rational whose ten-thousandfold is an
integer. -/
lemma round4_intValued (x : ℚ) (n : ℤ) (h : x * 10000 = (n : ℚ)) :
    round4 x = (n : ℚ) / 10000 := by
  unfold round4
  rw [h, roundHalfEven_intCast]

/-- The Yahoo helper writes the cache exactly when it succeeds, and it
writes exactly its own result. -/
lemma yahoo_cacheWrites (hist : Option (List PricePoint)) :
    (fetch_gold_prices_yahoo_finance hist).2 =
      (fetch_gold_prices_yahoo_finance hist).1.toList := by
  cases hist with
  | none => rfl
  | some rows =>
    simp only [fetch_gold_prices_yahoo_finance]
    split <;> rfl

/-- C3 (amended): the cache is written by the success paths of steps 2,
3 and 4 — the Yahoo steps write it twice, once inside the helper and
once in the dispatcher — while the cache-hit path and the synthesized
path write nothing. -/
theorem c3_cache_write_paths (env : GoldEnv) :
    (∀ d, load_cached_gold_data env.cache env.now = some d →
      (fetch_gold_prices env).cacheWrites = []) ∧
    (load_cached_gold_data env.cache env.now = none →
      ((∀ p, fetch_metals_api_gold env.metals env.metalsV1 env.metalsV2 env.today = some p →
          (fetch_gold_prices env).cacheWrites = [p]) ∧
       (fetch_metals_api_gold env.metals env.metalsV1 env.metalsV2 env.today = none →
        ((∀ p, (fetch_gold_prices_yahoo_finance env.futures).1 = some p →
            (fetch_gold_prices env).cacheWrites = [p, p]) ∧
         ((fetch_gold_prices_yahoo_finance env.futures).1 = none →
          ((∀ p, (fetch_gold_prices_yahoo_finance env.spot).1 = some p →
              (fetch_gold_prices env).cacheWrites = [p, p]) ∧
           ((fetch_gold_prices_yahoo_finance env.spot).1 = none →
            (fetch_gold_prices env).cacheWrites = []))))))) := by
  have hyf := yahoo_cacheWrites env.futures
  have hys := yahoo_cacheWrites env.spot
  constructor
  · intro d hd
    unfold fetch_gold_prices
    rw [hd]
  · intro h0
    constructor
    · intro p hp
      unfold fetch_gold_prices
      rw [h0, hp]
    · intro h1
      constructor
      · intro p hp
        unfold fetch_gold_prices
        rw [h0, h1]
        simp only [hp, hyf]
        rfl
      · intro h2
        constructor
        · intro p hp
          unfold fetch_gold_prices
          rw [h0, h1]
          simp only [h2, hp, hyf, hys]
          rfl
        · intro h3
          unfold fetch_gold_prices
          rw [h0, h1]
          simp only [h2, h3, hyf, hys]
          rfl

/-- Three consecutive weekday price rows (Mon, Tue, Wed). -/
def sampleRows : List PricePoint :=
  [{ price := 2000, date := 4 }, { price := 2010, date := 5 },
   { price := 2020, date := 6 }]

/-- The triple the Yahoo helper builds from `sampleRows`. -/
def sampleYahooTriple : GoldPrices :=
  { current := { price := 2020, date := 6 }
    t1 := { price := 2010, date := 5 }
    t2 := { price := 2000, date := 4 } }

/-- A fetch environment with no cache, a failing metals.live source and
a succeeding Yahoo-futures source. -/
def envYahooSuccess : GoldEnv :=
  { cache := none
    now := 600000
    metals := none, metalsV1 := 0, metalsV2 := 0
    futures := some sampleRows, spot := none
    genD0 := 0, genC1 := 0, genC2 := 0 }

/-- C3 counterexample: with metals.live (step 2) failing and Yahoo
futures (step 3) succeeding, the cache is written — twice — so the
step-2 success path is not the only cache-writing path. -/
theorem c3_counterexample :
    envYahooSuccess.metals = none ∧
    (fetch_gold_prices envYahooSuccess).cacheWrites =
      [sampleYahooTriple, sampleYahooTriple] := by
  constructor
  · rfl
  · decide

/-- C3 witness: the amended characterisation applied on the
Yahoo-futures success path of `envYahooSuccess`. -/
theorem c3_cache_write_paths_witness :
    (fetch_gold_prices envYahooSuccess).cacheWrites =
      [sampleYahooTriple, sampleYahooTriple] :=
  ((((c3_cache_write_paths envYahooSuccess).2 (by decide)).2
      (by decide)).1 sampleYahooTriple (by decide))

/-- C4 (amended): when the cache misses and every live source fails,
the fetch returns the synthesized triple built from a baseline of 2050
plus a random perturbation and two independent daily-change draws, and
never writes it to the cache.  (The triple carries no tag: see the C4
counterexample.) -/
theorem c4_all_sources_fail (env : GoldEnv)
    (h0 : load_cached_gold_data env.cache env.now = none)
    (h1 : fetch_metals_api_gold env.metals env.metalsV1 env.metalsV2 env.today = none)
    (h2 : (fetch_gold_prices_yahoo_finance env.futures).1 = none)
    (h3 : (fetch_gold_prices_yahoo_finance env.spot).1 = none) :
    fetch_gold_prices env =
      { prices := generate_realistic_gold_data env.today env.genD0 env.genC1 env.genC2
        attempts := [.metalsAPI, .yahooFutures, .yahooSpot]
        cacheWrites := [] } ∧
    (fetch_gold_prices env).prices.t2.price = round2 (2050 + env.genD0) ∧
    (fetch_gold_prices env).prices.t1.price =
      round2 ((2050 + env.genD0) * (1 + env.genC1)) ∧
    (fetch_gold_prices env).prices.current.price =
      round2 ((2050 + env.genD0) * (1 + env.genC1) * (1 + env.genC2)) := by
  have hyf := yahoo_cacheWrites env.futures
  have hys := yahoo_cacheWrites env.spot
  have hmain : fetch_gold_prices env =
      { prices := generate_realistic_gold_data env.today env.genD0 env.genC1 env.genC2
        attempts := [.metalsAPI, .yahooFutures, .yahooSpot]
        cacheWrites := [] } := by
    unfold fetch_gold_prices
    rw [h0, h1]
    simp only [h2, h3, hyf, hys]
    rfl
  refine ⟨hmain, ?_, ?_, ?_⟩ <;>
    rw [hmain] <;> simp [generate_realistic_gold_data]

/-- An environment where the cache misses and all three live sources
fail; the draws make the synthesized triple equal `envMetalsLive`'s. -/
def envAllFail : GoldEnv :=
  { cache := none
    now := 172800
    metals := none, metalsV1 := 0, metalsV2 := 0
    futures := none, spot := none
    genD0 := -50, genC1 := 0, genC2 := 0 }

/-- An environment where step 2 (metals.live) succeeds with price
2000 and zero perturbation draws. -/
def envMetalsLive : GoldEnv :=
  { cache := none
    now := 172800
    metals := some 2000, metalsV1 := 0, metalsV2 := 0
    futures := none, spot := none
    genD0 := 0, genC1 := 0, genC2 := 0 }

/-- The flat-2000 triple both `envAllFail` and `envMetalsLive`
produce. -/
def flatTriple2000 : GoldPrices :=
  { current := { price := 2000, date := 2 }
    t1 := { price := 2000, date := 1 }
    t2 := { price := 2000, date := 0 } }

/-- C4 counterexample: a fully synthesized triple is byte-for-byte
identical to a triple obtained live from metals.live, so the returned
value is not tagged and callers cannot distinguish live from simulated
data. -/
theorem c4_counterexample :
    envAllFail.cache = none ∧ envAllFail.metals = none ∧
    envAllFail.futures = none ∧ envAllFail.spot = none ∧
    envMetalsLive.metals = some 2000 ∧
    (fetch_gold_prices envAllFail).prices = flatTriple2000 ∧
    (fetch_gold_prices envMetalsLive).prices = flatTriple2000 := by
  have e : round2 (2000 : ℚ) = 2000 := by
    rw [round2_intValued _ 200000 (by norm_num)]
    norm_num
  refine ⟨rfl, rfl, rfl, rfl, rfl, ?_, ?_⟩
  · have h1 : fetch_gold_prices envAllFail =
        { prices := generate_realistic_gold_data 2 (-50) 0 0
          attempts := [.metalsAPI, .yahooFutures, .yahooSpot]
          cacheWrites := [] } := rfl
    rw [h1]
    norm_num [generate_realistic_gold_data, adjusted_dates, weekday,
      flatTriple2000, e]
  · have h0 : load_cached_gold_data envMetalsLive.cache envMetalsLive.now = none := rfl
    have hm : fetch_metals_api_gold envMetalsLive.metals envMetalsLive.metalsV1
        envMetalsLive.metalsV2 envMetalsLive.today = some flatTriple2000 := by
      show fetch_metals_api_gold (some 2000) 0 0 2 = some flatTriple2000
      simp only [fetch_metals_api_gold]
      rw [if_pos (by norm_num : (0:ℚ) < 2000)]
      norm_num [adjusted_dates, weekday, flatTriple2000, e]
    unfold fetch_gold_prices
    rw [h0, hm]

/-- C4 witness: the amended theorem applied to `envAllFail`. -/
theorem c4_all_sources_fail_witness :
    fetch_gold_prices envAllFail =
      { prices := generate_realistic_gold_data envAllFail.today
          envAllFail.genD0 envAllFail.genC1 envAllFail.genC2
        attempts := [.metalsAPI, .yahooFutures, .yahooSpot]
        cacheWrites := [] } :=
  (c4_all_sources_fail envAllFail (by decide) (by decide) (by decide) (by decide)).1

/-- A REST rate attempt is unusable when the request failed (or the
`CNY` key was absent) or when the returned rate is falsy (`if rate:`). -/
def fxUnusable (o : Option ℚ) : Prop := o = none ∨ o = some 0

/-- C5 (amended): the FX fetch tries the providers in order with first
success winning, and when every provider fails it returns
`round(7.15 + normal_draw, 4)` — a simulated rate depending on a random
draw, not a fixed constant. -/
theorem c5_fx_chain (env : FxEnv) :
    (∀ r, env.api1 = some r → r ≠ 0 → fetch_exchange_rate env = r) ∧
    (fxUnusable env.api1 →
      ((∀ r, env.api2 = some r → r ≠ 0 → fetch_exchange_rate env = r) ∧
       (fxUnusable env.api2 →
        ((∀ r, env.yahoo = some r → fetch_exchange_rate env = r) ∧
         (env.yahoo = none →
          fetch_exchange_rate env = round4 (715/100 + env.draw)))))) := by
  constructor
  · intro r hr hne
    unfold fetch_exchange_rate
    rw [hr]
    simp [hne]
  · rintro (h1 | h1)
    all_goals constructor
    · intro r hr hne
      unfold fetch_exchange_rate
      rw [h1, hr]
      simp [hne]
    · rintro (h2 | h2)
      all_goals constructor
      · intro r hr
        unfold fetch_exchange_rate
        rw [h1, h2, hr]
      · intro h3
        unfold fetch_exchange_rate
        rw [h1, h2, h3]
      · intro r hr
        unfold fetch_exchange_rate
        rw [h1, h2, hr]
        simp
      · intro h3
        unfold fetch_exchange_rate
        rw [h1, h2, h3]
        simp
    · intro r hr hne
      unfold fetch_exchange_rate
      rw [h1, hr]
      simp [hne]
    · rintro (h2 | h2)
      all_goals constructor
      · intro r hr
        unfold fetch_exchange_rate
        rw [h1, h2, hr]
        simp
      · intro h3
        unfold fetch_exchange_rate
        rw [h1, h2, h3]
        simp
      · intro r hr
        unfold fetch_exchange_rate
        rw [h1, h2, hr]
        simp
      · intro h3
        unfold fetch_exchange_rate
        rw [h1, h2, h3]
        simp

/-- An FX environment where every provider fails and the fallback draw
is `0`. -/
def envFxDrawZero : FxEnv :=
  { api1 := none, api2 := none, yahoo := none, draw := 0 }

/-- An FX environment where every provider fails and the fallback draw
is `1/10`. -/
def envFxDrawTenth : FxEnv :=
  { api1 := none, api2 := none, yahoo := none, draw := 1/10 }

/-- C5 counterexample: two runs in which every provider fails return
different values (7.15 vs 7.25), so the all-fail result is not a fixed
fallback constant. -/
theorem c5_counterexample :
    envFxDrawZero.api1 = none ∧ envFxDrawZero.api2 = none ∧
    envFxDrawZero.yahoo = none ∧
    envFxDrawTenth.api1 = none ∧ envFxDrawTenth.api2 = none ∧
    envFxDrawTenth.yahoo = none ∧
    fetch_exchange_rate envFxDrawZero = 715/100 ∧
    fetch_exchange_rate envFxDrawTenth = 725/100 := by
  refine ⟨rfl, rfl, rfl, rfl, rfl, rfl, ?_, ?_⟩
  · show round4 (715/100 + (0:ℚ)) = 715/100
    rw [round4_intValued _ 71500 (by norm_num)]
    norm_num
  · show round4 (715/100 + (1/10:ℚ)) = 725/100
    rw [round4_intValued _ 72500 (by norm_num)]
    norm_num

/-- C5 witness: the amended chain theorem applied to an all-fail
environment. -/
theorem c5_fx_chain_witness :
    fetch_exchange_rate envFxDrawTenth = round4 (715/100 + envFxDrawTenth.draw) :=
  ((((c5_fx_chain envFxDrawTenth).2 (Or.inl rfl)).2 (Or.inl rfl)).2) rfl

/-- Boolean test for having a given model premium, the observation on
which sort stability is stated. -/
def hasPremium (q : ℚ) (a : Analysis) : Bool := decide (a.premium_current = q)

/-- Inserting `x` into `l` with `orderedInsert premLE` places `x` before
every element with the same premium, and touches no other element of
the filtered view. -/
lemma filter_hasPremium_orderedInsert (q : ℚ) (x : Analysis) (l : List Analysis) :
    (l.orderedInsert premLE x).filter (hasPremium q) =
      if x.premium_current = q then x :: l.filter (hasPremium q)
      else l.filter (hasPremium q) := by
  induction l with
  | nil =>
    by_cases hxq : x.premium_current = q <;>
      simp [List.orderedInsert, hasPremium, hxq]
  | cons b l ih =>
    by_cases hab : premLE x b
    · rw [List.orderedInsert, if_pos hab]
      by_cases hxq : x.premium_current = q <;>
        simp [List.filter_cons, hasPremium, hxq]
    · rw [List.orderedInsert, if_neg hab]
      have hbx : b.premium_current < x.premium_current := by
        have := not_le.mp (by simpa [premLE] using hab)
        exact this
      by_cases hxq : x.premium_current = q
      · have hbq : ¬ b.premium_current = q := by
          rw [← hxq]
          exact ne_of_lt hbx
        simp [List.filter_cons, hasPremium, hbq, hxq, ih]
      · simp only [List.filter_cons, ih, if_neg hxq]

/-- Insertion sort by premium does not change the subsequence of
records holding any fixed premium: the sort is stable. -/
lemma filter_hasPremium_insertionSort (q : ℚ) (l : List Analysis) :
    (List.insertionSort premLE l).filter (hasPremium q) =
      l.filter (hasPremium q) := by
  induction l with
  | nil => rfl
  | cons a l ih =>
    rw [List.insertionSort, filter_hasPremium_orderedInsert]
    by_cases haq : a.premium_current = q <;>
      simp [List.filter_cons, hasPremium, haq, ih]

/-- C6: `analyze_multiple_funds` returns the successful evaluations
sorted ascending by model premium; the output is a permutation of the
evaluations in first-seen order, and for every premium value the
records holding it keep their first-seen relative order (stability). -/
theorem c6_sorted_stable (funds_data : List FundData) (gold_data : GoldData) :
    List.Pairwise premLE (analyze_multiple_funds funds_data gold_data) ∧
    (analyze_multiple_funds funds_data gold_data).Perm
      (evaluation_results funds_data gold_data) ∧
    ∀ q : ℚ,
      (analyze_multiple_funds funds_data gold_data).filter (hasPremium q) =
        (evaluation_results funds_data gold_data).filter (hasPremium q) :=
  ⟨List.sorted_insertionSort premLE (evaluation_results funds_data gold_data),
   List.perm_insertionSort premLE (evaluation_results funds_data gold_data),
   fun q => filter_hasPremium_insertionSort q (evaluation_results funds_data gold_data)⟩

/-- A record whose evaluation raises inside the batch loop. -/
def evaluation_fails (gold_data : GoldData) (f : FundData) : Bool :=
  (analyze_single_fund f gold_data).toOption.isNone

/-- Successes and failures of the batch loop partition the input. -/
lemma length_evaluation_results (funds_data : List FundData) (gold_data : GoldData) :
    (evaluation_results funds_data gold_data).length +
      (funds_data.filter (evaluation_fails gold_data)).length =
      funds_data.length := by
  induction funds_data with
  | nil => rfl
  | cons f fs ih =>
    simp only [evaluation_results] at ih ⊢
    rcases h : (analyze_single_fund f gold_data).toOption with _ | a
    · have hfail : evaluation_fails gold_data f = true := by
        simp [evaluation_fails, h]
      simp only [List.filterMap_cons, h, List.filter_cons, hfail, if_pos,
        List.length_cons]
      omega
    · have hok : evaluation_fails gold_data f = false := by
        simp [evaluation_fails, h]
      simp only [List.filterMap_cons, h, List.filter_cons, hok,
        Bool.false_eq_true, if_false, List.length_cons]
      omega

/-- C7: a batch in which exactly one record's evaluation raises yields
`n - 1` results instead of aborting. -/
theorem c7_one_failure (funds_data : List FundData) (gold_data : GoldData)
    (h : (funds_data.filter (evaluation_fails gold_data)).length = 1) :
    (analyze_multiple_funds funds_data gold_data).length =
      funds_data.length - 1 := by
  have hlen := length_evaluation_results funds_data gold_data
  have hsort : (analyze_multiple_funds funds_data gold_data).length =
      (evaluation_results funds_data gold_data).length :=
    (List.perm_insertionSort premLE (evaluation_results funds_data gold_data)).length_eq
  omega

/-- A fund record whose evaluation raises `TypeError` in
`premium_t1 / 100` (its `premium_t1` is the string `"x"`). -/
def badFund : FundData :=
  { fund_code := none, fund_name := none, nav_t2 := none,
    current_price := none, premium_t1 := some (.str "x") }

/-- A fund record with every field absent; all defaults apply. -/
def emptyFund : FundData :=
  { fund_code := none, fund_name := none, nav_t2 := none,
    current_price := none, premium_t1 := none }

/-- A gold-data dict with no `gold_return_total` key. -/
def emptyGold : GoldData := { gold_return_total := none }

/-- C7 witness: a two-record batch with one raising record yields one
result. -/
theorem c7_one_failure_witness :
    (analyze_multiple_funds [emptyFund, badFund] emptyGold).length =
      ([emptyFund, badFund] : List FundData).length - 1 :=
  c7_one_failure [emptyFund, badFund] emptyGold (by decide)

/-- C10 (amended): a record whose `nav_t2` and `current_price` are
missing or zero — and whose `premium_t1`, if present, is numeric — does
not raise: defaults produce estimated NAV 0, premium 0 and signal HOLD,
and the record is included in the batch output. -/
theorem c10_missing_fields_default (f : FundData) (g : GoldData)
    (hn : f.nav_t2 = none ∨ f.nav_t2 = some (.num 0))
    (hc : f.current_price = none ∨ f.current_price = some (.num 0))
    (hp : f.premium_t1 = none ∨ ∃ q : ℚ, f.premium_t1 = some (.num q)) :
    ∃ a : Analysis, analyze_single_fund f g = .ok a ∧
      a.estimated_nav_current = 0 ∧ a.premium_current = 0 ∧
      a.arbitrage_signal = .HOLD ∧
      analyze_multiple_funds [f] g = [a] := by
  have hnav : f.nav_t2.getD (.num 0) = .num 0 := by
    rcases hn with hn | hn <;> simp [hn]
  have hcp : f.current_price.getD (.num 0) = .num 0 := by
    rcases hc with hc | hc <;> simp [hc]
  have hpt : ∃ q : ℚ, f.premium_t1.getD (.num 0) = .num q := by
    rcases hp with hp | ⟨q, hp⟩
    · exact ⟨0, by simp [hp]⟩
    · exact ⟨q, by simp [hp]⟩
  obtain ⟨q, hq⟩ := hpt
  have hsig : get_arbitrage_signal 0 = .HOLD := by
    norm_num [get_arbitrage_signal]
  have hok : analyze_single_fund f g = .ok
      { fund_code := f.fund_code.getD ""
        fund_name := f.fund_name.getD ""
        nav_t2 := .num 0
        estimated_nav_current := 0
        current_price := .num 0
        premium_t1 := q / 100
        premium_current := 0
        premium_change := 0 - q / 100
        gold_return_total := g.gold_return_total.getD 0
        arbitrage_signal := .HOLD } := by
    unfold analyze_single_fund
    rw [hnav, hcp, hq]
    simp [calculate_estimated_nav, calculate_premium, hsig, Bind.bind,
      Except.bind]
    rfl
  refine ⟨_, hok, rfl, rfl, rfl, ?_⟩
  unfold analyze_multiple_funds evaluation_results
  rw [List.filterMap_cons]
  simp [hok, List.insertionSort, List.orderedInsert]

/-- C10 counterexample: a record with `nav_t2` and `current_price`
missing but a string-valued `premium_t1` raises `TypeError` and is
dropped from the batch, so the claim's unconditional "never raises" is
false. -/
theorem c10_counterexample :
    badFund.nav_t2 = none ∧ badFund.current_price = none ∧
    analyze_single_fund badFund emptyGold = .error "TypeError" ∧
    analyze_multiple_funds [badFund] emptyGold = [] := by
  exact ⟨rfl, rfl, rfl, rfl⟩

/-- C10 witness: the amended theorem applied to the all-fields-missing
record. -/
theorem c10_missing_fields_default_witness :
    ∃ a : Analysis, analyze_single_fund emptyFund emptyGold = .ok a ∧
      a.estimated_nav_current = 0 ∧ a.premium_current = 0 ∧
      a.arbitrage_signal = .HOLD ∧
      analyze_multiple_funds [emptyFund] emptyGold = [a] :=
  c10_missing_fields_default emptyFund emptyGold (Or.inl rfl) (Or.inl rfl)
    (Or.inl rfl)

/-- Every record emitted by the dedup loop comes with a non-empty code
not yet in `seen`. -/
lemma dedup_funds_mem {l : List QdiiFund} {seen : List String} {x : QdiiFund}
    (hx : x ∈ dedup_funds l seen) :
    x.fund_code ≠ "" ∧ x.fund_code ∉ seen := by
  induction l generalizing seen with
  | nil => cases hx
  | cons f rest ih =>
    by_cases h : f.fund_code ≠ "" ∧ f.fund_code ∉ seen
    · rw [dedup_funds, if_pos h] at hx
      rcases List.mem_cons.mp hx with rfl | hx'
      · exact h
      · have := ih hx'
        exact ⟨this.1, fun hs => this.2 (List.mem_cons_of_mem _ hs)⟩
    · rw [dedup_funds, if_neg h] at hx
      exact ih hx
/-- The dedup loop output is a sublist of its input: discovery order is
preserved. -/
lemma dedup_funds_sublist : ∀ (l : List QdiiFund) (seen : List String),
    List.Sublist (dedup_funds l seen) l
  | [], _ => List.Sublist.refl _
  | f :: rest, seen => by
    by_cases h : f.fund_code ≠ "" ∧ f.fund_code ∉ seen
    · rw [dedup_funds, if_pos h]
      exact (dedup_funds_sublist rest _).cons₂ f
    · rw [dedup_funds, if_neg h]
      exact (dedup_funds_sublist rest seen).cons f

/-- No code appears twice in the dedup loop output. -/
lemma dedup_funds_codes_nodup : ∀ (l : List QdiiFund) (seen : List String),
    ((dedup_funds l seen).map (·.fund_code)).Nodup
  | [], _ => List.nodup_nil
  | f :: rest, seen => by
    by_cases h : f.fund_code ≠ "" ∧ f.fund_code ∉ seen
    · rw [dedup_funds, if_pos h]
      rw [List.map_cons, List.nodup_cons]
      refine ⟨?_, dedup_funds_codes_nodup rest _⟩
      intro hmem
      obtain ⟨x, hx, hcode⟩ := List.mem_map.mp hmem
      exact (dedup_funds_mem hx).2 (hcode ▸ List.mem_cons_self _ _)
    · rw [dedup_funds, if_neg h]
      exact dedup_funds_codes_nodup rest seen

/-- For a non-empty, not-yet-seen code, the dedup loop output's first
record with that code is the input's first record with that code. -/
lemma dedup_funds_find? : ∀ (l : List QdiiFund) (seen : List String) (c : String),
    c ≠ "" → c ∉ seen →
    (dedup_funds l seen).find? (fun f => f.fund_code == c) =
      l.find? (fun f => f.fund_code == c)
  | [], _, _, _, _ => rfl
  | f :: rest, seen, c, hc, hseen => by
    by_cases hfc : f.fund_code = c
    · have hkeep : f.fund_code ≠ "" ∧ f.fund_code ∉ seen := by
        rw [hfc]; exact ⟨hc, hseen⟩
      rw [dedup_funds, if_pos hkeep]
      rw [List.find?_cons_of_pos _ (by simp [hfc]),
        List.find?_cons_of_pos _ (by simp [hfc])]
    · by_cases h : f.fund_code ≠ "" ∧ f.fund_code ∉ seen
      · rw [dedup_funds, if_pos h]
        rw [List.find?_cons_of_neg _ (by simp [hfc]),
          List.find?_cons_of_neg _ (by simp [hfc])]
        refine dedup_funds_find? rest _ c hc ?_
        intro hmem
        rcases List.mem_cons.mp hmem with h' | h'
        · exact hfc h'.symm
        · exact hseen h'
      · rw [dedup_funds, if_neg h]
        rw [List.find?_cons_of_neg _ (by simp [hfc])]
        exact dedup_funds_find? rest seen c hc hseen

/-- Every input record with a usable, not-yet-seen code is represented
in the dedup loop output. -/
lemma dedup_funds_complete : ∀ (l : List QdiiFund) (seen : List String)
    (f : QdiiFund), f ∈ l → f.fund_code ≠ "" → f.fund_code ∉ seen →
    ∃ g ∈ dedup_funds l seen, g.fund_code = f.fund_code
  | [], _, _, hf, _, _ => absurd hf (List.not_mem_nil _)
  | h :: rest, seen, f, hf, hcode, hseen => by
    by_cases hk : h.fund_code ≠ "" ∧ h.fund_code ∉ seen
    · rw [dedup_funds, if_pos hk]
      by_cases hfh : f.fund_code = h.fund_code
      · exact ⟨h, List.mem_cons_self _ _, hfh.symm⟩
      · rcases List.mem_cons.mp hf with rfl | hf'
        · exact absurd rfl hfh
        · obtain ⟨g, hg, hgc⟩ := dedup_funds_complete rest (h.fund_code :: seen)
            f hf' hcode (by simp [hseen, hfh])
          exact ⟨g, List.mem_cons_of_mem _ hg, hgc⟩
    · rw [dedup_funds, if_neg hk]
      rcases List.mem_cons.mp hf with rfl | hf'
      · exact absurd ⟨hcode, hseen⟩ hk
      · exact dedup_funds_complete rest seen f hf' hcode hseen

/-- C8: merging keyword-search result lists dedups by fund code in
discovery order — only records with a non-empty code survive, no code
survives twice, order is preserved, the survivor for each code is the
first record carrying it (kept whole, no field merge), and every
non-empty code present in the input is represented. -/
theorem c8_merge_first_wins (lists : List (List QdiiFund)) :
    (∀ f ∈ merge_fund_lists lists, f.fund_code ≠ "") ∧
    ((merge_fund_lists lists).map (·.fund_code)).Nodup ∧
    List.Sublist (merge_fund_lists lists) lists.flatten ∧
    (∀ c : String, c ≠ "" →
      (merge_fund_lists lists).find? (fun f => f.fund_code == c) =
        lists.flatten.find? (fun f => f.fund_code == c)) ∧
    (∀ f ∈ lists.flatten, f.fund_code ≠ "" →
      ∃ g ∈ merge_fund_lists lists, g.fund_code = f.fund_code) := by
  refine ⟨?_, ?_, ?_, ?_, ?_⟩
  · intro f hf
    exact (dedup_funds_mem hf).1
  · exact dedup_funds_codes_nodup _ _
  · exact dedup_funds_sublist _ _
  · intro c hc
    exact dedup_funds_find? _ _ c hc (List.not_mem_nil c)
  · intro f hf hc
    exact dedup_funds_complete _ _ f hf hc (List.not_mem_nil _)

/-- First discovered record for code `"A"`. -/
def fundA1 : QdiiFund :=
  { fund_code := "A", fund_name := "v1", current_price := 1, nav_t2 := 1,
    estimated_nav_t1 := 1, premium_t1 := 1, volume := 1, turnover := 1 }

/-- A record for code `"B"`. -/
def fundB : QdiiFund :=
  { fund_code := "B", fund_name := "b", current_price := 2, nav_t2 := 2,
    estimated_nav_t1 := 2, premium_t1 := 2, volume := 2, turnover := 2 }

/-- A later duplicate record for code `"A"` with different fields. -/
def fundA2 : QdiiFund :=
  { fund_code := "A", fund_name := "v2", current_price := 3, nav_t2 := 3,
    estimated_nav_t1 := 3, premium_t1 := 3, volume := 3, turnover := 3 }

/-- C8 witness: on the spec's example shape
`[[A:v1, B], [A:v2]]`, the survivor for `"A"` is the first record. -/
theorem c8_merge_first_wins_witness :
    (merge_fund_lists [[fundA1, fundB], [fundA2]]).find?
        (fun f => f.fund_code == "A") =
      ([[fundA1, fundB], [fundA2]] : List (List QdiiFund)).flatten.find?
        (fun f => f.fund_code == "A") :=
  (c8_merge_first_wins [[fundA1, fundB], [fundA2]]).2.2.2.1 "A" (by decide)

end EtfDelta
